import Mathlib

/-!
Shallow embedding of the payroll backend's domain services
(Organization, Payroll, Division, Job, Bank, Employee), their repository
contracts and the validation / ownership-chain logic, together with
theorems settling the specification claims.

Conventions of the embedding:
* `Uuid` is modelled as `Nat`; fresh id generation (`Uuid::new_v4`) becomes
  an explicit `id` argument of `create`, with freshness (`fetch id = none`)
  a hypothesis where it matters.
* `chrono::NaiveDate` is modelled as `Int` (ordered days), `f64` salaries
  as `Rat`, `i32` hours as `Int`.
* Rust `String` is modelled as `List Char` (`Str`); `str::trim` is
  `trimStr` (dropping ASCII whitespace on both ends).
* Each repository is a list inside `Store`; `fetch` is keyed lookup,
  `insert` appends, `update` rewrites the matching record and `delete`
  filters it out, mirroring the repository contract and the in-memory
  repository semantics.
* A service call returns `Except AppError`; a mutating call additionally
  returns the post-state, so an error path leaves the store untouched by
  construction.
-/

namespace Nomina

abbrev Uuid := Nat

abbrev NaiveDate := Int

abbrev Str := List Char

/-- Characters stripped by `str::trim` (ASCII whitespace subset). -/
def isWhitespaceChar (c : Char) : Bool :=
  c == ' ' || c == '\t' || c == '\n' || c == '\r'

/-- Model of `str::trim`: drop whitespace from both ends. -/
def trimStr (s : Str) : Str :=
  ((s.dropWhile isWhitespaceChar).reverse.dropWhile isWhitespaceChar).reverse

/-- Error taxonomy of `error.rs` (`AppError`). -/
inductive AppError where
  | validation (message : String)
  | notFound (message : String)
  | conflict (message : String)
  | database (message : String)
  | internal (message : String)
deriving DecidableEq, Repr

abbrev AppResult (α : Type) := Except AppError α

/-- The constructor kind of an `AppError`, used to compare outcomes without
evaluating interpolated messages. -/
inductive ErrorKind where
  | validation | notFound | conflict | database | internal
deriving DecidableEq, Repr

def AppError.kind : AppError → ErrorKind
  | .validation _ => .validation
  | .notFound _ => .notFound
  | .conflict _ => .conflict
  | .database _ => .database
  | .internal _ => .internal

/-- The error kind of a result, `none` on success. -/
def resultErrorKind {α : Type} : AppResult α → Option ErrorKind
  | .error e => some e.kind
  | .ok _ => none

/-- Rust `Option::transpose` on `Option<Result<_, AppError>>`. -/
def optionTranspose {α : Type} : Option (AppResult α) → AppResult (Option α)
  | none => .ok none
  | some (.ok a) => .ok (some a)
  | some (.error e) => .error e

/-- Stable insertion into a `le`-sorted list: the new element goes after
existing elements it does not strictly precede, matching Rust's stable
`sort_by`. -/
def insertSorted {α : Type} (le : α → α → Bool) (x : α) : List α → List α
  | [] => [x]
  | y :: ys => if le y x then y :: insertSorted le x ys else x :: y :: ys

/-- Stable sort by a boolean comparator (model of `Vec::sort_by`). -/
def sortBy {α : Type} (le : α → α → Bool) (l : List α) : List α :=
  l.foldl (fun acc x => insertSorted le x acc) []

/-- Lexicographic order on `Str`, the model of `String::cmp` ascending. -/
def strLe : Str → Str → Bool
  | [], _ => true
  | _ :: _, [] => false
  | a :: as_, b :: bs =>
    if a < b then true
    else if b < a then false
    else strLe as_ bs

/-! ## Domain entities (`domain/*.rs`) -/

structure Organization where
  id : Uuid
  name : Str
deriving DecidableEq, Repr

structure Payroll where
  id : Uuid
  name : Str
  description : Str
  organization_id : Uuid
deriving DecidableEq, Repr

structure Division where
  id : Uuid
  name : Str
  description : Str
  budget_code : Str
  payroll_id : Uuid
  parent_division_id : Option Uuid
deriving DecidableEq, Repr

structure Job where
  id : Uuid
  job_title : Str
  salary : Rat
  payroll_id : Uuid
deriving DecidableEq, Repr

structure Bank where
  id : Uuid
  name : Str
  organization_id : Uuid
deriving DecidableEq, Repr

structure Employee where
  id : Uuid
  id_number : Str
  last_name : Str
  first_name : Str
  address : Str
  phone : Str
  place_of_birth : Str
  date_of_birth : NaiveDate
  nationality : Str
  marital_status : Str
  gender : Str
  hire_date : NaiveDate
  termination_date : Option NaiveDate
  clasification : Str
  job_id : Uuid
  bank_id : Uuid
  bank_account : Str
  status : Str
  hours : Int
  division_id : Uuid
  payroll_id : Uuid
deriving DecidableEq, Repr

/-! ## Service parameter types (`services/*.rs`) -/

structure CreateOrganizationParams where
  name : Str
deriving DecidableEq, Repr

structure UpdateOrganizationParams where
  name : Option Str := none
deriving DecidableEq, Repr

structure CreatePayrollParams where
  name : Str
  description : Str
deriving DecidableEq, Repr

structure UpdatePayrollParams where
  name : Option Str := none
  description : Option Str := none
deriving DecidableEq, Repr

structure CreateDivisionParams where
  name : Str
  description : Str
  budget_code : Str
  payroll_id : Uuid
  parent_division_id : Option Uuid := none
deriving DecidableEq, Repr

structure UpdateDivisionParams where
  name : Option Str := none
  description : Option Str := none
  budget_code : Option Str := none
  payroll_id : Option Uuid := none
  parent_division_id : Option (Option Uuid) := none
deriving DecidableEq, Repr

structure UpdateJobParams where
  job_title : Option Str := none
  salary : Option Rat := none
deriving DecidableEq, Repr

structure UpdateBankParams where
  name : Option Str := none
deriving DecidableEq, Repr

structure CreateEmployeeParams where
  id_number : Str
  last_name : Str
  first_name : Str
  address : Str
  phone : Str
  place_of_birth : Str
  date_of_birth : NaiveDate
  nationality : Str
  marital_status : Str
  gender : Str
  hire_date : NaiveDate
  termination_date : Option NaiveDate := none
  clasification : Str
  job_id : Uuid
  bank_id : Uuid
  bank_account : Str
  status : Str
  hours : Int
deriving DecidableEq, Repr

structure UpdateEmployeeParams where
  id_number : Option Str := none
  last_name : Option Str := none
  first_name : Option Str := none
  address : Option Str := none
  phone : Option Str := none
  place_of_birth : Option Str := none
  date_of_birth : Option NaiveDate := none
  nationality : Option Str := none
  marital_status : Option Str := none
  gender : Option Str := none
  hire_date : Option NaiveDate := none
  termination_date : Option (Option NaiveDate) := none
  clasification : Option Str := none
  job_id : Option Uuid := none
  bank_id : Option Uuid := none
  bank_account : Option Str := none
  status : Option Str := none
  hours : Option Int := none
deriving DecidableEq, Repr

/-! ## Store and repository operations

One list per entity; `fetch` is lookup by id, `insert` appends, `update`
applies the supplied optional fields to the matching record, `delete`
removes it and reports whether it existed. -/

structure Store where
  organizations : List Organization := []
  payrolls : List Payroll := []
  divisions : List Division := []
  jobs : List Job := []
  banks : List Bank := []
  employees : List Employee := []
deriving DecidableEq, Repr

def Store.fetchOrganization (s : Store) (id : Uuid) : Option Organization :=
  s.organizations.find? (fun o => o.id == id)

def Store.fetchPayroll (s : Store) (id : Uuid) : Option Payroll :=
  s.payrolls.find? (fun p => p.id == id)

def Store.fetchDivision (s : Store) (id : Uuid) : Option Division :=
  s.divisions.find? (fun d => d.id == id)

def Store.fetchJob (s : Store) (id : Uuid) : Option Job :=
  s.jobs.find? (fun j => j.id == id)

def Store.fetchBank (s : Store) (id : Uuid) : Option Bank :=
  s.banks.find? (fun b => b.id == id)

def Store.fetchEmployee (s : Store) (id : Uuid) : Option Employee :=
  s.employees.find? (fun e => e.id == id)

def Store.fetchPayrollsByOrganization (s : Store) (organization_id : Uuid) : List Payroll :=
  s.payrolls.filter (fun p => p.organization_id == organization_id)

def Store.insertPayroll (s : Store) (id : Uuid) (name description : Str)
    (organization_id : Uuid) : Payroll × Store :=
  let payroll : Payroll :=
    { id := id, name := name, description := description,
      organization_id := organization_id }
  (payroll, { s with payrolls := s.payrolls ++ [payroll] })

def Store.updatePayroll (s : Store) (id : Uuid) (name description : Option Str) :
    Option Payroll × Store :=
  match s.fetchPayroll id with
  | none => (none, s)
  | some existing =>
    let updated :=
      { existing with
        name := name.getD existing.name,
        description := description.getD existing.description }
    (some updated,
      { s with payrolls := s.payrolls.map (fun p => if p.id == id then updated else p) })

def Store.deletePayroll (s : Store) (id : Uuid) : Bool × Store :=
  (s.payrolls.any (fun p => p.id == id),
    { s with payrolls := s.payrolls.filter (fun p => p.id != id) })

def Store.updateOrganization (s : Store) (id : Uuid) (name : Option Str) :
    Option Organization × Store :=
  match s.fetchOrganization id with
  | none => (none, s)
  | some existing =>
    let updated := { existing with name := name.getD existing.name }
    (some updated,
      { s with organizations := s.organizations.map (fun o => if o.id == id then updated else o) })

def Store.insertDivision (s : Store) (id : Uuid) (name description budget_code : Str)
    (payroll_id : Uuid) (parent_division_id : Option Uuid) : Division × Store :=
  let division : Division :=
    { id := id, name := name, description := description, budget_code := budget_code,
      payroll_id := payroll_id, parent_division_id := parent_division_id }
  (division, { s with divisions := s.divisions ++ [division] })

def Store.updateDivision (s : Store) (id : Uuid) (name description budget_code : Option Str)
    (payroll_id : Option Uuid) (parent_division_id : Option (Option Uuid)) :
    Option Division × Store :=
  match s.fetchDivision id with
  | none => (none, s)
  | some existing =>
    let updated :=
      { existing with
        name := name.getD existing.name,
        description := description.getD existing.description,
        budget_code := budget_code.getD existing.budget_code,
        payroll_id := payroll_id.getD existing.payroll_id,
        parent_division_id := parent_division_id.getD existing.parent_division_id }
    (some updated,
      { s with divisions := s.divisions.map (fun d => if d.id == id then updated else d) })

def Store.updateJob (s : Store) (id : Uuid) (job_title : Option Str) (salary : Option Rat) :
    Option Job × Store :=
  match s.fetchJob id with
  | none => (none, s)
  | some existing =>
    let updated :=
      { existing with
        job_title := job_title.getD existing.job_title,
        salary := salary.getD existing.salary }
    (some updated,
      { s with jobs := s.jobs.map (fun j => if j.id == id then updated else j) })

def Store.updateBank (s : Store) (id : Uuid) (name : Option Str) : Option Bank × Store :=
  match s.fetchBank id with
  | none => (none, s)
  | some existing =>
    let updated := { existing with name := name.getD existing.name }
    (some updated,
      { s with banks := s.banks.map (fun b => if b.id == id then updated else b) })

def Store.deleteBank (s : Store) (id : Uuid) : Bool × Store :=
  (s.banks.any (fun b => b.id == id),
    { s with banks := s.banks.filter (fun b => b.id != id) })

def Store.insertEmployee (s : Store) (employee : Employee) : Employee × Store :=
  (employee, { s with employees := s.employees ++ [employee] })

def Store.updateEmployee (s : Store) (id : Uuid) (u : UpdateEmployeeParams) :
    Option Employee × Store :=
  match s.fetchEmployee id with
  | none => (none, s)
  | some existing =>
    let updated :=
      { existing with
        id_number := u.id_number.getD existing.id_number,
        last_name := u.last_name.getD existing.last_name,
        first_name := u.first_name.getD existing.first_name,
        address := u.address.getD existing.address,
        phone := u.phone.getD existing.phone,
        place_of_birth := u.place_of_birth.getD existing.place_of_birth,
        date_of_birth := u.date_of_birth.getD existing.date_of_birth,
        nationality := u.nationality.getD existing.nationality,
        marital_status := u.marital_status.getD existing.marital_status,
        gender := u.gender.getD existing.gender,
        hire_date := u.hire_date.getD existing.hire_date,
        termination_date := u.termination_date.getD existing.termination_date,
        clasification := u.clasification.getD existing.clasification,
        job_id := u.job_id.getD existing.job_id,
        bank_id := u.bank_id.getD existing.bank_id,
        bank_account := u.bank_account.getD existing.bank_account,
        status := u.status.getD existing.status,
        hours := u.hours.getD existing.hours }
    (some updated,
      { s with employees := s.employees.map (fun e => if e.id == id then updated else e) })

def Store.deleteEmployee (s : Store) (id : Uuid) : Bool × Store :=
  (s.employees.any (fun e => e.id == id),
    { s with employees := s.employees.filter (fun e => e.id != id) })

/-! ## OrganizationService (`services/organization.rs`) -/

def OrganizationService.normalize_name (value : Str) : AppResult Str :=
  let name := trimStr value
  if name.isEmpty then .error (.validation "organization name cannot be empty")
  else .ok name

def OrganizationService.get (s : Store) (id : Uuid) : AppResult (Option Organization) :=
  .ok (s.fetchOrganization id)

def OrganizationService.update (s : Store) (id : Uuid) (params : UpdateOrganizationParams) :
    AppResult (Option Organization × Store) := do
  if params.name.isNone then
    Except.error (.validation "no fields supplied for update")
  else do
    let name ← optionTranspose (params.name.map OrganizationService.normalize_name)
    pure (s.updateOrganization id name)

/-! ## PayrollService (`services/payroll.rs`) -/

def PayrollService.normalize_name (value : Str) : AppResult Str :=
  let name := trimStr value
  if name.isEmpty then .error (.validation "payroll name cannot be empty")
  else .ok name

def PayrollService.normalize_description (value : Str) : AppResult Str :=
  let description := trimStr value
  if description.isEmpty then .error (.validation "payroll description cannot be empty")
  else .ok description

def PayrollService.ensure_organization_exists (s : Store) (organization_id : Uuid) :
    AppResult Unit := do
  let org ← OrganizationService.get s organization_id
  if org.isSome then pure ()
  else Except.error (.notFound ("organization `" ++ toString organization_id ++ "` not found"))

def PayrollService.create (s : Store) (organization_id : Uuid) (params : CreatePayrollParams)
    (id : Uuid) : AppResult (Payroll × Store) := do
  let name ← PayrollService.normalize_name params.name
  let description ← PayrollService.normalize_description params.description
  PayrollService.ensure_organization_exists s organization_id
  pure (s.insertPayroll id name description organization_id)

def PayrollService.get (s : Store) (organization_id payroll_id : Uuid) :
    AppResult (Option Payroll) :=
  let payroll := s.fetchPayroll payroll_id
  .ok (payroll.filter (fun p => p.organization_id == organization_id))

def PayrollService.list (s : Store) (organization_id : Uuid) : AppResult (List Payroll) := do
  PayrollService.ensure_organization_exists s organization_id
  let payrolls := s.fetchPayrollsByOrganization organization_id
  pure (sortBy (fun a b => strLe a.name b.name) payrolls)

def PayrollService.update (s : Store) (organization_id payroll_id : Uuid)
    (params : UpdatePayrollParams) : AppResult (Option Payroll × Store) := do
  if params.name.isNone && params.description.isNone then
    Except.error (.validation "no fields supplied for update")
  else do
    let current ← PayrollService.get s organization_id payroll_id
    if current.isNone then
      pure (none, s)
    else do
      let name ← optionTranspose (params.name.map PayrollService.normalize_name)
      let description ← optionTranspose (params.description.map PayrollService.normalize_description)
      pure (s.updatePayroll payroll_id name description)

def PayrollService.delete (s : Store) (organization_id payroll_id : Uuid) :
    AppResult (Bool × Store) := do
  let current ← PayrollService.get s organization_id payroll_id
  if current.isNone then pure (false, s)
  else pure (s.deletePayroll payroll_id)

def PayrollService.ensure_belongs_to_organization (s : Store)
    (organization_id payroll_id : Uuid) : AppResult Unit := do
  let current ← PayrollService.get s organization_id payroll_id
  if current.isSome then pure ()
  else
    Except.error (.notFound ("payroll `" ++ toString payroll_id ++
      "` not found for organization `" ++ toString organization_id ++ "`"))

/-! ## DivisionService (`services/division.rs`) -/

def DivisionService.normalize_field (value : Str) (field : String) : AppResult Str :=
  let trimmed := trimStr value
  if trimmed.isEmpty then .error (.validation (field ++ " cannot be empty"))
  else .ok trimmed

/-- Modelled from the spec: `DivisionService::ensure_payroll_exists` calls
`payroll_service.get(payroll_id)` with a single argument, but no
one-argument `PayrollService::get` exists in the source (its `get` takes an
organization scope).  Per the spec's repository contract
(`fetch(id) -> Entity?`), the unscoped lookup is the payroll repository
fetch. -/
def PayrollService.get_unscoped (s : Store) (payroll_id : Uuid) : AppResult (Option Payroll) :=
  .ok (s.fetchPayroll payroll_id)

def DivisionService.ensure_payroll_exists (s : Store) (payroll_id : Uuid) : AppResult Unit := do
  let payroll ← PayrollService.get_unscoped s payroll_id
  if payroll.isSome then pure ()
  else Except.error (.notFound ("payroll `" ++ toString payroll_id ++ "` not found"))

def DivisionService.validate_parent (s : Store) (parent_division_id : Option Uuid)
    (target_payroll_id : Option Uuid) (division_id : Option Uuid) :
    AppResult (Option Uuid) :=
  match parent_division_id with
  | some parent_id =>
    if some parent_id == division_id then
      .error (.validation "division cannot be its own parent")
    else
      match s.fetchDivision parent_id with
      | none => .error (.notFound ("parent division `" ++ toString parent_id ++ "` not found"))
      | some parent =>
        match target_payroll_id with
        | some target_payroll =>
          if parent.payroll_id != target_payroll then
            .error (.validation "parent division must belong to the same payroll")
          else .ok (some parent_id)
        | none => .ok (some parent_id)
  | none => .ok none

def DivisionService.create (s : Store) (params : CreateDivisionParams) (id : Uuid) :
    AppResult (Division × Store) := do
  let name ← DivisionService.normalize_field params.name "division name"
  let description ← DivisionService.normalize_field params.description "division description"
  let budget_code ← DivisionService.normalize_field params.budget_code "division budget code"
  DivisionService.ensure_payroll_exists s params.payroll_id
  let parent_division_id ←
    DivisionService.validate_parent s params.parent_division_id (some params.payroll_id) none
  pure (s.insertDivision id name description budget_code params.payroll_id parent_division_id)

def DivisionService.get (s : Store) (id : Uuid) : AppResult (Option Division) :=
  .ok (s.fetchDivision id)

def DivisionService.list (s : Store) : AppResult (List Division) := do
  let divisions := s.divisions
  pure (sortBy (fun a b => strLe a.name b.name) divisions)

def DivisionService.update (s : Store) (id : Uuid) (params : UpdateDivisionParams) :
    AppResult (Option Division × Store) := do
  if params.name.isNone && params.description.isNone && params.budget_code.isNone &&
      params.payroll_id.isNone && params.parent_division_id.isNone then
    Except.error (.validation "no fields supplied for update")
  else
    match s.fetchDivision id with
    | none => pure (none, s)
    | some existing => do
      (match params.payroll_id with
       | some payroll_id => DivisionService.ensure_payroll_exists s payroll_id
       | none => pure ())
      let target_payroll_id := params.payroll_id.getD existing.payroll_id
      (if params.parent_division_id.isNone && params.payroll_id.isSome then
        match existing.parent_division_id with
        | some current_parent => do
          let _ ← DivisionService.validate_parent s (some current_parent)
            (some target_payroll_id) (some id)
          pure ()
        | none => pure ()
       else pure ())
      let parent_update ← (match params.parent_division_id with
        | some parent_field => do
          let validated ← DivisionService.validate_parent s parent_field
            (some target_payroll_id) (some id)
          pure (some validated)
        | none => pure none)
      let name ← optionTranspose (params.name.map
        (fun v => DivisionService.normalize_field v "division name"))
      let description ← optionTranspose (params.description.map
        (fun v => DivisionService.normalize_field v "division description"))
      let budget_code ← optionTranspose (params.budget_code.map
        (fun v => DivisionService.normalize_field v "division budget code"))
      pure (s.updateDivision id name description budget_code params.payroll_id parent_update)

/-! ## JobService (`services/job.rs`) -/

def JobService.normalize_title (value : Str) : AppResult Str :=
  let trimmed := trimStr value
  if trimmed.isEmpty then .error (.validation "job title cannot be empty")
  else .ok trimmed

def JobService.validate_salary (value : Rat) : AppResult Rat :=
  if value ≤ 0 then .error (.validation "salary must be greater than zero")
  else .ok value

def JobService.ensure_payroll_accessible (s : Store) (organization_id payroll_id : Uuid) :
    AppResult Unit :=
  PayrollService.ensure_belongs_to_organization s organization_id payroll_id

def JobService.get (s : Store) (organization_id payroll_id job_id : Uuid) :
    AppResult (Option Job) := do
  JobService.ensure_payroll_accessible s organization_id payroll_id
  let job := s.fetchJob job_id
  pure (job.filter (fun j => j.payroll_id == payroll_id))

def JobService.update (s : Store) (organization_id payroll_id job_id : Uuid)
    (params : UpdateJobParams) : AppResult (Option Job × Store) := do
  if params.job_title.isNone && params.salary.isNone then
    Except.error (.validation "no fields supplied for update")
  else do
    let current ← JobService.get s organization_id payroll_id job_id
    if current.isNone then
      pure (none, s)
    else do
      let job_title ← optionTranspose (params.job_title.map JobService.normalize_title)
      let salary ← optionTranspose (params.salary.map JobService.validate_salary)
      pure (s.updateJob job_id job_title salary)

/-! ## BankService (`services/bank.rs`) -/

def BankService.normalize_name (value : Str) : AppResult Str :=
  let name := trimStr value
  if name.isEmpty then .error (.validation "bank name cannot be empty")
  else .ok name

def BankService.get (s : Store) (organization_id bank_id : Uuid) : AppResult (Option Bank) :=
  let bank := s.fetchBank bank_id
  .ok (bank.filter (fun b => b.organization_id == organization_id))

def BankService.update (s : Store) (organization_id bank_id : Uuid) (params : UpdateBankParams) :
    AppResult (Option Bank × Store) := do
  if params.name.isNone then
    Except.error (.validation "no fields supplied for update")
  else do
    let current ← BankService.get s organization_id bank_id
    if current.isNone then
      pure (none, s)
    else do
      let name ← optionTranspose (params.name.map BankService.normalize_name)
      pure (s.updateBank bank_id name)

def BankService.delete (s : Store) (organization_id bank_id : Uuid) :
    AppResult (Bool × Store) := do
  let current ← BankService.get s organization_id bank_id
  if current.isNone then pure (false, s)
  else pure (s.deleteBank bank_id)

/-! ## EmployeeService (`services/employee.rs`) -/

/-- Modelled from the spec: `EmployeeService` calls
`division_service.get(organization_id, payroll_id, division_id)` with three
arguments, but the source `DivisionService::get` takes only an id — the
scoped lookup is missing from the source.  Per spec §4.3 (division
operations are scoped under `(organization_id, payroll_id)`, and a
mismatched scope is treated as absent) it is modelled on the sibling
`JobService::get` pattern: first the payroll-ownership check, then fetch
and filter on the division's `payroll_id`. -/
def DivisionService.get_scoped (s : Store) (organization_id payroll_id division_id : Uuid) :
    AppResult (Option Division) := do
  PayrollService.ensure_belongs_to_organization s organization_id payroll_id
  let division := s.fetchDivision division_id
  pure (division.filter (fun d => d.payroll_id == payroll_id))

def EmployeeService.normalize_field (value : Str) (field : String) : AppResult Str :=
  let trimmed := trimStr value
  if trimmed.isEmpty then .error (.validation (field ++ " cannot be empty"))
  else .ok trimmed

def EmployeeService.validate_hours (value : Int) : AppResult Int :=
  if value < 0 then .error (.validation "hours cannot be negative")
  else .ok value

def EmployeeService.validate_termination_date (hire_date : NaiveDate)
    (termination_date : Option NaiveDate) : AppResult (Option NaiveDate) :=
  match termination_date with
  | some date =>
    if date < hire_date then
      .error (.validation "termination date cannot be before hire date")
    else .ok (some date)
  | none => .ok none

def EmployeeService.ensure_division_accessible (s : Store)
    (organization_id payroll_id division_id : Uuid) : AppResult Unit := do
  PayrollService.ensure_belongs_to_organization s organization_id payroll_id
  let division ← DivisionService.get_scoped s organization_id payroll_id division_id
  match division with
  | some _ => pure ()
  | none =>
    Except.error (.notFound ("division `" ++ toString division_id ++
      "` not found for payroll `" ++ toString payroll_id ++
      "` in organization `" ++ toString organization_id ++ "`"))

def EmployeeService.ensure_job_belongs (s : Store) (organization_id payroll_id job_id : Uuid) :
    AppResult Unit := do
  let job ← JobService.get s organization_id payroll_id job_id
  match job with
  | some j =>
    if j.payroll_id == payroll_id then pure ()
    else
      Except.error (.notFound ("job `" ++ toString job_id ++
        "` not found for payroll `" ++ toString payroll_id ++ "`"))
  | none =>
    Except.error (.notFound ("job `" ++ toString job_id ++
      "` not found for payroll `" ++ toString payroll_id ++ "`"))

def EmployeeService.ensure_bank_belongs (s : Store) (organization_id bank_id : Uuid) :
    AppResult Unit := do
  let bank ← BankService.get s organization_id bank_id
  match bank with
  | some b =>
    if b.organization_id == organization_id then pure ()
    else
      Except.error (.notFound ("bank `" ++ toString bank_id ++
        "` not found for organization `" ++ toString organization_id ++ "`"))
  | none =>
    Except.error (.notFound ("bank `" ++ toString bank_id ++
      "` not found for organization `" ++ toString organization_id ++ "`"))

def EmployeeService.create (s : Store) (organization_id payroll_id division_id : Uuid)
    (params : CreateEmployeeParams) (id : Uuid) : AppResult (Employee × Store) := do
  let divisionOpt ← DivisionService.get_scoped s organization_id payroll_id division_id
  let division ← (match divisionOpt with
    | some division => pure division
    | none =>
      Except.error (.notFound ("division `" ++ toString division_id ++
        "` not found for payroll `" ++ toString payroll_id ++
        "` in organization `" ++ toString organization_id ++ "`")))
  EmployeeService.ensure_job_belongs s organization_id payroll_id params.job_id
  EmployeeService.ensure_bank_belongs s organization_id params.bank_id
  let id_number ← EmployeeService.normalize_field params.id_number "id number"
  let last_name ← EmployeeService.normalize_field params.last_name "last name"
  let first_name ← EmployeeService.normalize_field params.first_name "first name"
  let address ← EmployeeService.normalize_field params.address "address"
  let phone ← EmployeeService.normalize_field params.phone "phone"
  let place_of_birth ← EmployeeService.normalize_field params.place_of_birth "place of birth"
  let nationality ← EmployeeService.normalize_field params.nationality "nationality"
  let marital_status ← EmployeeService.normalize_field params.marital_status "marital status"
  let gender ← EmployeeService.normalize_field params.gender "gender"
  let clasification ← EmployeeService.normalize_field params.clasification "clasification"
  let bank_account ← EmployeeService.normalize_field params.bank_account "bank account"
  let status ← EmployeeService.normalize_field params.status "status"
  let hours ← EmployeeService.validate_hours params.hours
  let hire_date := params.hire_date
  let termination_date ←
    EmployeeService.validate_termination_date hire_date params.termination_date
  pure (s.insertEmployee
    { id := id, id_number := id_number, last_name := last_name, first_name := first_name,
      address := address, phone := phone, place_of_birth := place_of_birth,
      date_of_birth := params.date_of_birth, nationality := nationality,
      marital_status := marital_status, gender := gender, hire_date := hire_date,
      termination_date := termination_date, clasification := clasification,
      job_id := params.job_id, bank_id := params.bank_id, bank_account := bank_account,
      status := status, hours := hours, division_id := division.id,
      payroll_id := payroll_id })

def EmployeeService.get (s : Store) (organization_id payroll_id division_id employee_id : Uuid) :
    AppResult (Option Employee) := do
  EmployeeService.ensure_division_accessible s organization_id payroll_id division_id
  let employee := s.fetchEmployee employee_id
  pure (employee.filter
    (fun e => e.division_id == division_id && e.payroll_id == payroll_id))

def UpdateEmployeeParams.allAbsent (params : UpdateEmployeeParams) : Bool :=
  params.id_number.isNone && params.last_name.isNone && params.first_name.isNone &&
  params.address.isNone && params.phone.isNone && params.place_of_birth.isNone &&
  params.date_of_birth.isNone && params.nationality.isNone && params.marital_status.isNone &&
  params.gender.isNone && params.hire_date.isNone && params.termination_date.isNone &&
  params.clasification.isNone && params.job_id.isNone && params.bank_id.isNone &&
  params.bank_account.isNone && params.status.isNone && params.hours.isNone

def EmployeeService.update (s : Store)
    (organization_id payroll_id division_id employee_id : Uuid)
    (params : UpdateEmployeeParams) : AppResult (Option Employee × Store) := do
  if params.allAbsent then
    Except.error (.validation "no fields supplied for update")
  else do
    let current ← EmployeeService.get s organization_id payroll_id division_id employee_id
    match current with
    | none => pure (none, s)
    | some employee => do
      (match params.job_id with
       | some job_id => EmployeeService.ensure_job_belongs s organization_id payroll_id job_id
       | none => pure ())
      (match params.bank_id with
       | some bank_id => EmployeeService.ensure_bank_belongs s organization_id bank_id
       | none => pure ())
      let hire_date := params.hire_date.getD employee.hire_date
      let termination_date ← (match params.termination_date with
        | some value => do
          let validated ← EmployeeService.validate_termination_date hire_date value
          pure (some validated)
        | none => pure none)
      let id_number ← optionTranspose (params.id_number.map
        (fun v => EmployeeService.normalize_field v "id number"))
      let last_name ← optionTranspose (params.last_name.map
        (fun v => EmployeeService.normalize_field v "last name"))
      let first_name ← optionTranspose (params.first_name.map
        (fun v => EmployeeService.normalize_field v "first name"))
      let address ← optionTranspose (params.address.map
        (fun v => EmployeeService.normalize_field v "address"))
      let phone ← optionTranspose (params.phone.map
        (fun v => EmployeeService.normalize_field v "phone"))
      let place_of_birth ← optionTranspose (params.place_of_birth.map
        (fun v => EmployeeService.normalize_field v "place of birth"))
      let nationality ← optionTranspose (params.nationality.map
        (fun v => EmployeeService.normalize_field v "nationality"))
      let marital_status ← optionTranspose (params.marital_status.map
        (fun v => EmployeeService.normalize_field v "marital status"))
      let gender ← optionTranspose (params.gender.map
        (fun v => EmployeeService.normalize_field v "gender"))
      let clasification ← optionTranspose (params.clasification.map
        (fun v => EmployeeService.normalize_field v "clasification"))
      let bank_account ← optionTranspose (params.bank_account.map
        (fun v => EmployeeService.normalize_field v "bank account"))
      let status ← optionTranspose (params.status.map
        (fun v => EmployeeService.normalize_field v "status"))
      let hours ← optionTranspose (params.hours.map EmployeeService.validate_hours)
      let updates : UpdateEmployeeParams :=
        { id_number := id_number, last_name := last_name, first_name := first_name,
          address := address, phone := phone, place_of_birth := place_of_birth,
          date_of_birth := params.date_of_birth, nationality := nationality,
          marital_status := marital_status, gender := gender,
          hire_date := params.hire_date, termination_date := termination_date,
          clasification := clasification, job_id := params.job_id,
          bank_id := params.bank_id, bank_account := bank_account, status := status,
          hours := hours }
      pure (s.updateEmployee employee_id updates)

def EmployeeService.delete (s : Store)
    (organization_id payroll_id division_id employee_id : Uuid) :
    AppResult (Bool × Store) := do
  let current ← EmployeeService.get s organization_id payroll_id division_id employee_id
  if current.isNone then pure (false, s)
  else pure (s.deleteEmployee employee_id)

/-! ## Handler tri-state parsing (`handlers/division.rs`)

A JSON update field has three input shapes: absent, present-null and
present-value.  `serde(default)` maps an absent field to `None`;
`deserialize_option_option` wraps a present field (null or value) in
`Some`. -/

inductive JsonField (α : Type) where
  | absent
  | null
  | value (v : α)
deriving DecidableEq, Repr

/-- `deserialize_option_option`: wrap the deserialized inner option in
`Some` (the field was present). -/
def deserialize_option_option {α : Type} (inner : Option α) : Option (Option α) :=
  some inner

/-- The `parent_division_id` field of `UpdateDivisionRequest` as parsed by
serde: absent → field default `none`; present → `deserialize_option_option`
of the inner option. -/
def parseTriStateField {α : Type} : JsonField α → Option (Option α)
  | .absent => none
  | .null => deserialize_option_option none
  | .value v => deserialize_option_option (some v)

/-! ## Result projections used to state concrete facts -/

/-- Hire and termination date of the employee returned by a successful
update. -/
def updatedEmployeeDates (r : AppResult (Option Employee × Store)) :
    Option (NaiveDate × Option NaiveDate) :=
  match r with
  | .ok (some e, _) => some (e.hire_date, e.termination_date)
  | _ => none

/-- Payroll id of the division returned by a successful update. -/
def updatedDivisionPayroll (r : AppResult (Option Division × Store)) : Option Uuid :=
  match r with
  | .ok (some d, _) => some d.payroll_id
  | _ => none

/-- Payroll id of the division stored under `id` in the post-state of a
successful update. -/
def storedDivisionPayroll (r : AppResult (Option Division × Store)) (id : Uuid) : Option Uuid :=
  match r with
  | .ok (_, s2) => (s2.fetchDivision id).map (fun d => d.payroll_id)
  | _ => none

/-! ## Concrete fixtures -/

def o1 : Organization := { id := 1, name := "Acme".toList }

def o2 : Organization := { id := 2, name := "Globex".toList }

def p10 : Payroll :=
  { id := 10, name := "May".toList, description := "Monthly".toList, organization_id := 1 }

def p11 : Payroll :=
  { id := 11, name := "June".toList, description := "Monthly".toList, organization_id := 1 }

def d21 : Division :=
  { id := 21, name := "Ops".toList, description := "Desc".toList,
    budget_code := "BC1".toList, payroll_id := 10, parent_division_id := none }

def d22 : Division :=
  { id := 22, name := "Eng".toList, description := "Desc".toList,
    budget_code := "BC2".toList, payroll_id := 10, parent_division_id := some 21 }

def d23 : Division :=
  { id := 23, name := "Fin".toList, description := "Desc".toList,
    budget_code := "BC3".toList, payroll_id := 11, parent_division_id := none }

def j31 : Job := { id := 31, job_title := "Dev".toList, salary := 1, payroll_id := 10 }

def j32 : Job := { id := 32, job_title := "Mgr".toList, salary := 1, payroll_id := 11 }

def b41 : Bank := { id := 41, name := "First".toList, organization_id := 1 }

def b42 : Bank := { id := 42, name := "Second".toList, organization_id := 2 }

def e51 : Employee :=
  { id := 51, id_number := "E1".toList, last_name := "Doe".toList,
    first_name := "Ann".toList, address := "Addr".toList, phone := "555".toList,
    place_of_birth := "City".toList, date_of_birth := -7000,
    nationality := "X".toList, marital_status := "S".toList, gender := "F".toList,
    hire_date := 0, termination_date := some 10, clasification := "A".toList,
    job_id := 31, bank_id := 41, bank_account := "ACC".toList,
    status := "active".toList, hours := 40, division_id := 21, payroll_id := 10 }

/-- A populated store exercising the whole hierarchy: two organizations,
two payrolls of organization 1, a division tree under payroll 10, one
division under payroll 11, jobs, banks and one employee. -/
def exampleStore : Store :=
  { organizations := [o1, o2],
    payrolls := [p10, p11],
    divisions := [d21, d22, d23],
    jobs := [j31, j32],
    banks := [b41, b42],
    employees := [e51] }

/-- A store whose only payroll references an organization id (9) that does
not exist: organization 1 is absent as well. -/
def c5Store : Store :=
  { payrolls := [{ id := 1, name := "May".toList, description := "Monthly".toList,
                   organization_id := 9 }] }

end Nomina

deriving instance DecidableEq for Except

namespace Nomina

theorem bind_ok {α β : Type} {x : AppResult α} {f : α → AppResult β} {c : β} :
    (x >>= f) = .ok c ↔ ∃ a, x = .ok a ∧ f a = .ok c := by
  cases x <;> simp [Bind.bind, Except.bind]

theorem pure_ok {α : Type} {a c : α} : (pure a : AppResult α) = .ok c ↔ a = c := by
  simp [pure, Except.pure]

theorem bind_error {α β : Type} {x : AppResult α} {f : α → AppResult β} {e : AppError}
    (h : x = .error e) : (x >>= f) = .error e := by
  rw [h]; rfl

theorem ok_bind {α β : Type} {a : α} {f : α → AppResult β} :
    ((Except.ok a : AppResult α) >>= f) = f a := rfl

theorem pure_bind_result {α β : Type} {a : α} {f : α → AppResult β} :
    ((pure a : AppResult α) >>= f) = f a := rfl

theorem find?_map_replace {α : Type} (p : α → Bool) (upd : α) (hupd : p upd = true) :
    ∀ (l : List α) (d : α), l.find? p = some d →
      (l.map (fun x => if p x then upd else x)).find? p = some upd := by
  intro l
  induction l with
  | nil => intro d h; simp at h
  | cons a t ih =>
    intro d h
    by_cases hpa : p a = true
    · simp [List.find?_cons, hpa, hupd]
    · have hpa' : p a = false := eq_false_of_ne_true hpa
      rw [List.find?_cons_of_neg _ (by simp [hpa'])] at h
      simp only [List.map_cons, hpa', Bool.false_eq_true, if_false]
      rw [List.find?_cons_of_neg _ (by simp [hpa'])]
      exact ih d h

theorem validate_parent_some_ok {s : Store} {pid target : Uuid} {oid : Option Uuid}
    {v : Option Uuid}
    (h : DivisionService.validate_parent s (some pid) (some target) oid = .ok v) :
    v = some pid ∧ some pid ≠ oid ∧
      ∃ parent, s.fetchDivision pid = some parent ∧ parent.payroll_id = target := by
  rw [DivisionService.validate_parent] at h
  by_cases hself : (some pid == oid) = true
  · simp [hself] at h
  · have hself' : (some pid == oid) = false := eq_false_of_ne_true hself
    simp only [hself', Bool.false_eq_true, if_false] at h
    cases hf : s.fetchDivision pid with
    | none => rw [hf] at h; simp at h
    | some parent =>
      rw [hf] at h
      dsimp only at h
      by_cases hpay : (parent.payroll_id != target) = true
      · simp [hpay] at h
      · have hpay' : (parent.payroll_id != target) = false := eq_false_of_ne_true hpay
        rw [if_neg (by simp [hpay'])] at h
        have hv : v = some pid := by
          injection h with h2
          exact h2.symm
        exact ⟨hv, beq_eq_false_iff_ne.mp hself', parent, rfl, bne_eq_false_iff_eq.mp hpay'⟩

theorem ensure_payroll_exists_ok {s : Store} {p : Uuid} {u : Unit}
    (h : DivisionService.ensure_payroll_exists s p = .ok u) :
    (s.fetchPayroll p).isSome = true := by
  rw [DivisionService.ensure_payroll_exists] at h
  rw [PayrollService.get_unscoped, ok_bind] at h
  by_cases hs : (s.fetchPayroll p).isSome = true
  · exact hs
  · rw [if_neg hs] at h
    simp at h

theorem division_update_ok_fields {s : Store} {id : Uuid} {params : UpdateDivisionParams}
    {d div : Division} {s2 : Store}
    (hd : s.fetchDivision id = some d)
    (h : DivisionService.update s id params = .ok (some div, s2)) :
    div.id = d.id ∧
    div.payroll_id = params.payroll_id.getD d.payroll_id ∧
    (params.parent_division_id = none → div.parent_division_id = d.parent_division_id) ∧
    (∀ pf, params.parent_division_id = some pf →
      ∃ v, DivisionService.validate_parent s pf (some (params.payroll_id.getD d.payroll_id))
          (some id) = .ok v ∧ div.parent_division_id = v) ∧
    (∀ p, params.payroll_id = some p → (s.fetchPayroll p).isSome = true) ∧
    s2.fetchDivision id = some div := by
  have hpred : (d.id == id) = true := by
    have := List.find?_some (show s.divisions.find? (fun x => x.id == id) = some d from hd)
    simpa using this
  rw [DivisionService.update] at h
  cases hg : (params.name.isNone && params.description.isNone && params.budget_code.isNone &&
      params.payroll_id.isNone && params.parent_division_id.isNone) with
  | true => rw [hg] at h; simp at h
  | false =>
    rw [hg] at h
    simp only [Bool.false_eq_true, if_false, hd] at h
    rw [bind_ok] at h; obtain ⟨u1, hpay, h⟩ := h
    rw [bind_ok] at h; obtain ⟨u2, _hblk, h⟩ := h
    rw [bind_ok] at h; obtain ⟨pu, hpu, h⟩ := h
    rw [bind_ok] at h; obtain ⟨nm, _hnm, h⟩ := h
    rw [bind_ok] at h; obtain ⟨ds, _hds, h⟩ := h
    rw [bind_ok] at h; obtain ⟨bc, _hbc, h⟩ := h
    rw [pure_ok] at h
    unfold Store.updateDivision at h
    rw [hd] at h
    dsimp only at h
    rw [Prod.mk.injEq] at h
    obtain ⟨hdiv, hs2⟩ := h
    rw [Option.some.injEq] at hdiv
    subst hdiv
    refine ⟨rfl, rfl, ?_, ?_, ?_, ?_⟩
    · intro hnone
      rw [hnone] at hpu
      dsimp only at hpu
      rw [pure_ok] at hpu
      rw [← hpu]
      rfl
    · intro pf hpf
      rw [hpf] at hpu
      dsimp only at hpu
      rw [bind_ok] at hpu
      obtain ⟨v, hv, hpuv⟩ := hpu
      rw [pure_ok] at hpuv
      exact ⟨v, hv, by rw [← hpuv]; rfl⟩
    · intro p hp
      rw [hp] at hpay
      exact ensure_payroll_exists_ok hpay
    · rw [← hs2]
      exact find?_map_replace _ _ (by simpa using hpred) s.divisions d hd

theorem employee_get_ok_some {s : Store} {org p d eid : Uuid} {e : Employee}
    (h : EmployeeService.get s org p d eid = .ok (some e)) :
    s.fetchEmployee eid = some e ∧ e.division_id = d ∧ e.payroll_id = p := by
  rw [EmployeeService.get] at h
  rw [bind_ok] at h
  obtain ⟨u, _hacc, h⟩ := h
  rw [pure_ok] at h
  cases hf : s.fetchEmployee eid with
  | none => rw [hf] at h; simp [Option.filter] at h
  | some e0 =>
    rw [hf] at h
    simp only [Option.filter] at h
    by_cases hp : (e0.division_id == d && e0.payroll_id == p) = true
    · rw [if_pos hp] at h
      rw [Option.some.injEq] at h
      subst h
      rw [Bool.and_eq_true] at hp
      exact ⟨rfl, beq_iff_eq.mp hp.1, beq_iff_eq.mp hp.2⟩
    · rw [if_neg hp] at h
      simp at h

/-! ## Claim theorems -/

/-- C6: for every entity type, an `update` whose params carry no field at
all fails with the Validation error "no fields supplied for update" before
any lookup, for every store and every target id — so no state change occurs
whether or not the id exists. -/
theorem claim_C6_zero_field_update_is_validation (s : Store) (org p d id : Uuid) :
    OrganizationService.update s id {} =
      .error (.validation "no fields supplied for update") ∧
    PayrollService.update s org id {} =
      .error (.validation "no fields supplied for update") ∧
    DivisionService.update s id {} =
      .error (.validation "no fields supplied for update") ∧
    JobService.update s org p id {} =
      .error (.validation "no fields supplied for update") ∧
    BankService.update s org id {} =
      .error (.validation "no fields supplied for update") ∧
    EmployeeService.update s org p d id {} =
      .error (.validation "no fields supplied for update") :=
  ⟨rfl, rfl, rfl, rfl, rfl, rfl⟩

/-- C3: `DivisionService::list` takes no `(organization_id, payroll_id)`
scope and returns the divisions of every payroll.  On a store whose
divisions lie under payrolls 10 (`d21`, `d22`) and 11 (`d23`), `list`
returns all three sorted by name — including the payroll-11 division, which
a payroll-scoped list over payroll 10 would exclude. -/
theorem claim_C3_list_returns_all_payrolls :
    DivisionService.list exampleStore = .ok [d22, d23, d21] ∧
    d23.payroll_id ≠ d21.payroll_id ∧ d23.payroll_id ≠ d22.payroll_id :=
  ⟨by decide, by decide, by decide⟩

/-- C4 counterexample: employee 51 is stored with hire date 0 and
termination date 10; an update supplying only `hire_date := 20` succeeds
and leaves the stored termination date (10) strictly earlier than the new
hire date (20), violating the claimed invariant. -/
theorem claim_C4_counterexample :
    updatedEmployeeDates (EmployeeService.update exampleStore 1 10 21 51
      { hire_date := some 20 }) = some (20, some 10) ∧ (10 : Int) < 20 :=
  ⟨by decide, by decide⟩

/-- C5 counterexample: organization 1 does not exist in `c5Store`, yet
`PayrollService::update` and `PayrollService::delete` under organization 1
do not fail with NotFound — they return `None` / `false` with the store
unchanged. -/
theorem claim_C5_counterexample :
    c5Store.fetchOrganization 1 = none ∧
    PayrollService.update c5Store 1 1 { name := some "X".toList } = .ok (none, c5Store) ∧
    PayrollService.delete c5Store 1 1 = .ok (false, c5Store) :=
  ⟨by decide, by decide, by decide⟩

/-- C7 counterexample: on create the self-parent check is vacuous (the
division's own id is `None` in `validate_parent`): creating a division
whose `parent_division_id` equals the freshly assigned id 99 fails with
NotFound (the fresh id is not stored), not with the claimed Validation. -/
theorem claim_C7_counterexample :
    exampleStore.fetchDivision 99 = none ∧
    resultErrorKind (DivisionService.create exampleStore
      { name := "New".toList, description := "Desc".toList, budget_code := "BC".toList,
        payroll_id := 10, parent_division_id := some 99 } 99) = some .notFound :=
  ⟨by decide, by decide⟩

/-- C8 counterexample: division 21 is stored under payroll 10; an update
supplying `payroll_id := 11` succeeds and both the returned and the stored
record now carry payroll 11 — the division's own `payroll_id` is not
immutable under update. -/
theorem claim_C8_counterexample :
    exampleStore.fetchDivision 21 = some d21 ∧ d21.payroll_id = 10 ∧
    updatedDivisionPayroll
      (DivisionService.update exampleStore 21 { payroll_id := some 11 }) = some 11 ∧
    storedDivisionPayroll
      (DivisionService.update exampleStore 21 { payroll_id := some 11 }) 21 = some 11 ∧
    (11 : Uuid) ≠ 10 :=
  ⟨by decide, by decide, by decide, by decide, by decide⟩

/-- C10 counterexample: employee 51 belongs to division 21; deleting it
under the mismatched scope `(1, 10, 99)` (division 99 does not exist) does
not return `false` — the scoped existence check fails first and the call
errors with NotFound. -/
theorem claim_C10_counterexample :
    exampleStore.fetchEmployee 51 = some e51 ∧ e51.division_id = 21 ∧ (21 : Uuid) ≠ 99 ∧
    resultErrorKind (EmployeeService.delete exampleStore 1 10 99 51) = some .notFound :=
  ⟨by decide, by decide, by decide, by decide⟩

/-- C2: for a stored division, an update with the `parent_division_id`
tri-state field absent leaves the stored parent unchanged; present-null
clears it; present-value reassigns it to exactly that value after parent
validation ran (the parent exists, differs from the division and belongs to
the target payroll); and the serde parsing of the field keeps the three
input shapes distinguishable. -/
theorem claim_C2_division_update_tristate (s : Store) (id : Uuid) (d : Division)
    (hd : s.fetchDivision id = some d) :
    (∀ params div s2, params.parent_division_id = none →
      DivisionService.update s id params = .ok (some div, s2) →
      div.parent_division_id = d.parent_division_id) ∧
    (∀ params div s2, params.parent_division_id = some none →
      DivisionService.update s id params = .ok (some div, s2) →
      div.parent_division_id = none) ∧
    (∀ params pid div s2, params.parent_division_id = some (some pid) →
      DivisionService.update s id params = .ok (some div, s2) →
      div.parent_division_id = some pid ∧ pid ≠ id ∧
      ∃ parent, s.fetchDivision pid = some parent ∧
        parent.payroll_id = params.payroll_id.getD d.payroll_id) ∧
    (∀ f g : JsonField Uuid, parseTriStateField f = parseTriStateField g → f = g) ∧
    parseTriStateField (JsonField.absent : JsonField Uuid) = none ∧
    parseTriStateField (JsonField.null : JsonField Uuid) = some none ∧
    (∀ v : Uuid, parseTriStateField (JsonField.value v) = some (some v)) := by
  refine ⟨?_, ?_, ?_, ?_, rfl, rfl, fun v => rfl⟩
  · intro params div s2 hpf h
    exact (division_update_ok_fields hd h).2.2.1 hpf
  · intro params div s2 hpf h
    obtain ⟨v, hv, hdp⟩ := (division_update_ok_fields hd h).2.2.2.1 none hpf
    have hvn : (Except.ok (none : Option Uuid) : AppResult (Option Uuid)) = .ok v := hv
    injection hvn with hvn
    rw [hdp, ← hvn]
  · intro params pid div s2 hpf h
    obtain ⟨v, hv, hdp⟩ := (division_update_ok_fields hd h).2.2.2.1 (some pid) hpf
    obtain ⟨hvp, hne, parent, hparent, hpay⟩ := validate_parent_some_ok hv
    refine ⟨by rw [hdp, hvp], ?_, parent, hparent, hpay⟩
    intro hcontra
    exact hne (by rw [hcontra])
  · intro f g h
    cases f <;> cases g <;> simp_all [parseTriStateField, deserialize_option_option]

/-- C2 witness: the tri-state update semantics instantiated at division 21
of the example store. -/
theorem claim_C2_division_update_tristate_witness :
    (∀ params div s2, params.parent_division_id = none →
      DivisionService.update exampleStore 21 params = .ok (some div, s2) →
      div.parent_division_id = d21.parent_division_id) ∧
    (∀ params div s2, params.parent_division_id = some none →
      DivisionService.update exampleStore 21 params = .ok (some div, s2) →
      div.parent_division_id = none) ∧
    (∀ params pid div s2, params.parent_division_id = some (some pid) →
      DivisionService.update exampleStore 21 params = .ok (some div, s2) →
      div.parent_division_id = some pid ∧ pid ≠ 21 ∧
      ∃ parent, exampleStore.fetchDivision pid = some parent ∧
        parent.payroll_id = params.payroll_id.getD d21.payroll_id) ∧
    (∀ f g : JsonField Uuid, parseTriStateField f = parseTriStateField g → f = g) ∧
    parseTriStateField (JsonField.absent : JsonField Uuid) = none ∧
    parseTriStateField (JsonField.null : JsonField Uuid) = some none ∧
    (∀ v : Uuid, parseTriStateField (JsonField.value v) = some (some v)) :=
  claim_C2_division_update_tristate exampleStore 21 d21 (by decide)

/-- C8 amended: a division's `payroll_id` is not immutable — a successful
update stores `params.payroll_id` when supplied (after confirming that
payroll exists) and keeps the old value only when the field is absent. -/
theorem claim_C8_amended_payroll_reassignable (s : Store) (id : Uuid) (d : Division)
    (hd : s.fetchDivision id = some d) :
    (∀ params div s2, DivisionService.update s id params = .ok (some div, s2) →
      div.payroll_id = params.payroll_id.getD d.payroll_id ∧
      s2.fetchDivision id = some div ∧
      (∀ p, params.payroll_id = some p → (s.fetchPayroll p).isSome = true)) ∧
    (∀ params div s2, params.payroll_id = none →
      DivisionService.update s id params = .ok (some div, s2) →
      div.payroll_id = d.payroll_id) := by
  constructor
  · intro params div s2 h
    have f := division_update_ok_fields hd h
    exact ⟨f.2.1, f.2.2.2.2.2, f.2.2.2.2.1⟩
  · intro params div s2 hp h
    have f := division_update_ok_fields hd h
    rw [f.2.1, hp]
    rfl

/-- C8 amended witness: instantiated at division 21 of the example store. -/
theorem claim_C8_amended_payroll_reassignable_witness :
    (∀ params div s2, DivisionService.update exampleStore 21 params = .ok (some div, s2) →
      div.payroll_id = params.payroll_id.getD d21.payroll_id ∧
      s2.fetchDivision 21 = some div ∧
      (∀ p, params.payroll_id = some p → (exampleStore.fetchPayroll p).isSome = true)) ∧
    (∀ params div s2, params.payroll_id = none →
      DivisionService.update exampleStore 21 params = .ok (some div, s2) →
      div.payroll_id = d21.payroll_id) :=
  claim_C8_amended_payroll_reassignable exampleStore 21 d21 (by decide)

/-- C9: when an update supplies a new `payroll_id`, leaves the tri-state
parent field absent, and the division currently has a parent `q`, the
existing parent is re-validated against the new payroll before the write:
a vanished parent yields NotFound, a parent under a different payroll
yields Validation (the store untouched in both cases, as no post-state is
produced), and on success the division keeps parent `q`, carries the new
payroll `p`, and the parent's payroll equals the division's payroll. -/
theorem claim_C9_payroll_reassign_revalidates_parent (s : Store) (id p q : Uuid)
    (d : Division) (params : UpdateDivisionParams)
    (hd : s.fetchDivision id = some d)
    (hpar : d.parent_division_id = some q)
    (hq : q ≠ id)
    (hpp : params.payroll_id = some p)
    (hpf : params.parent_division_id = none)
    (hpe : (s.fetchPayroll p).isSome = true) :
    (s.fetchDivision q = none →
      DivisionService.update s id params =
        .error (.notFound ("parent division `" ++ toString q ++ "` not found"))) ∧
    (∀ parent, s.fetchDivision q = some parent → parent.payroll_id ≠ p →
      DivisionService.update s id params =
        .error (.validation "parent division must belong to the same payroll")) ∧
    (∀ parent div s2, s.fetchDivision q = some parent → parent.payroll_id = p →
      DivisionService.update s id params = .ok (some div, s2) →
      div.parent_division_id = some q ∧ div.payroll_id = p ∧
      parent.payroll_id = div.payroll_id) := by
  have hqbeq : ((some q : Option Uuid) == some id) = false := by
    rw [beq_eq_false_iff_ne]
    simpa using hq
  have hens : DivisionService.ensure_payroll_exists s p = .ok () := by
    rw [DivisionService.ensure_payroll_exists, PayrollService.get_unscoped, ok_bind,
      if_pos hpe]
    rfl
  have hguard : (params.name.isNone && params.description.isNone &&
      params.budget_code.isNone && params.payroll_id.isNone &&
      params.parent_division_id.isNone) = false := by
    rw [hpp]
    simp
  refine ⟨?_, ?_, ?_⟩
  · intro hqnone
    rw [DivisionService.update, hguard]
    simp only [Bool.false_eq_true, if_false, hd]
    simp only [hpp]
    rw [hens, ok_bind]
    rw [if_pos (show (params.parent_division_id.isNone && (some p : Option Uuid).isSome) = true
      from by rw [hpf]; rfl)]
    simp only [hpar, Option.getD_some]
    rw [DivisionService.validate_parent]
    simp only [hqbeq, Bool.false_eq_true, if_false, hqnone]
    rfl
  · intro parent hqsome hpne
    have hbne : (parent.payroll_id != p) = true := bne_iff_ne.mpr hpne
    rw [DivisionService.update, hguard]
    simp only [Bool.false_eq_true, if_false, hd]
    simp only [hpp]
    rw [hens, ok_bind]
    rw [if_pos (show (params.parent_division_id.isNone && (some p : Option Uuid).isSome) = true
      from by rw [hpf]; rfl)]
    simp only [hpar, Option.getD_some]
    rw [DivisionService.validate_parent]
    simp only [hqbeq, Bool.false_eq_true, if_false, hqsome]
    rw [if_pos hbne]
    rfl
  · intro parent div s2 _hqsome hppq h
    have f := division_update_ok_fields hd h
    have hparent : div.parent_division_id = d.parent_division_id := f.2.2.1 hpf
    have hpayroll : div.payroll_id = params.payroll_id.getD d.payroll_id := f.2.1
    rw [hpp] at hpayroll
    simp only [Option.getD_some] at hpayroll
    exact ⟨by rw [hparent, hpar], hpayroll, by rw [hpayroll, hppq]⟩

/-- C9 witness: division 22 (parent 21, payroll 10) re-validated while
reassigning it to payroll 11. -/
theorem claim_C9_payroll_reassign_revalidates_parent_witness :
    (exampleStore.fetchDivision 21 = none →
      DivisionService.update exampleStore 22 { payroll_id := some 11 } =
        .error (.notFound ("parent division `" ++ toString (21 : Uuid) ++ "` not found"))) ∧
    (∀ parent, exampleStore.fetchDivision 21 = some parent → parent.payroll_id ≠ 11 →
      DivisionService.update exampleStore 22 { payroll_id := some 11 } =
        .error (.validation "parent division must belong to the same payroll")) ∧
    (∀ parent div s2, exampleStore.fetchDivision 21 = some parent → parent.payroll_id = 11 →
      DivisionService.update exampleStore 22 { payroll_id := some 11 } = .ok (some div, s2) →
      div.parent_division_id = some 21 ∧ div.payroll_id = 11 ∧
      parent.payroll_id = div.payroll_id) :=
  claim_C9_payroll_reassign_revalidates_parent exampleStore 22 11 21 d22
    { payroll_id := some 11 } (by decide) (by decide) (by decide) rfl rfl (by decide)

/-- C7 amended: on update, a `parent_division_id` equal to the division's
own id fails with Validation "division cannot be its own parent".  On
create the self-check is vacuous (the own id is `None` in
`validate_parent`) and a parent equal to the freshly assigned id fails with
NotFound, because a fresh id is not yet stored.  In both directions no
self-parenting record is ever persisted: a successful create or update
never returns (or stores) a division whose parent is its own id. -/
theorem claim_C7_amended_self_parent (s : Store) (idu idc : Uuid) (d : Division)
    (uparams : UpdateDivisionParams) (cparams : CreateDivisionParams)
    (n1 n2 n3 : Str)
    (hd : s.fetchDivision idu = some d)
    (hup : uparams.parent_division_id = some (some idu))
    (hpayok : ∀ p, uparams.payroll_id = some p → (s.fetchPayroll p).isSome = true)
    (hcfresh : s.fetchDivision idc = none)
    (hcp : cparams.parent_division_id = some idc)
    (hn1 : DivisionService.normalize_field cparams.name "division name" = .ok n1)
    (hn2 : DivisionService.normalize_field cparams.description "division description" = .ok n2)
    (hn3 : DivisionService.normalize_field cparams.budget_code "division budget code" = .ok n3)
    (hcpay : (s.fetchPayroll cparams.payroll_id).isSome = true) :
    DivisionService.update s idu uparams =
      .error (.validation "division cannot be its own parent") ∧
    DivisionService.create s cparams idc =
      .error (.notFound ("parent division `" ++ toString idc ++ "` not found")) ∧
    (∀ params id0 div s2, s.fetchDivision id0 = none →
      DivisionService.create s params id0 = .ok (div, s2) →
      div.parent_division_id ≠ some div.id) ∧
    (∀ id0 params dd div s2, s.fetchDivision id0 = some dd →
      dd.parent_division_id ≠ some id0 →
      DivisionService.update s id0 params = .ok (some div, s2) →
      div.parent_division_id ≠ some div.id) := by
  have hguard : (uparams.name.isNone && uparams.description.isNone &&
      uparams.budget_code.isNone && uparams.payroll_id.isNone &&
      uparams.parent_division_id.isNone) = false := by
    rw [hup]
    simp
  refine ⟨?_, ?_, ?_, ?_⟩
  · rw [DivisionService.update, hguard]
    simp only [Bool.false_eq_true, if_false, hd]
    cases hpo : uparams.payroll_id with
    | none =>
      simp only [pure_bind_result]
      rw [if_neg (show ¬(uparams.parent_division_id.isNone &&
          (none : Option Uuid).isSome) = true from by rw [hup]; simp)]
      rw [pure_bind_result, hup]
      dsimp only
      rw [DivisionService.validate_parent]
      rw [if_pos (show ((some idu : Option Uuid) == some idu) = true from by simp)]
      rfl
    | some pp =>
      have hens : DivisionService.ensure_payroll_exists s pp = .ok () := by
        rw [DivisionService.ensure_payroll_exists, PayrollService.get_unscoped, ok_bind,
          if_pos (hpayok pp hpo)]
        rfl
      simp only [hens, ok_bind]
      rw [if_neg (show ¬(uparams.parent_division_id.isNone &&
          (some pp : Option Uuid).isSome) = true from by rw [hup]; simp)]
      rw [pure_bind_result, hup]
      dsimp only
      rw [DivisionService.validate_parent]
      rw [if_pos (show ((some idu : Option Uuid) == some idu) = true from by simp)]
      rfl
  · have hens : DivisionService.ensure_payroll_exists s cparams.payroll_id = .ok () := by
      rw [DivisionService.ensure_payroll_exists, PayrollService.get_unscoped, ok_bind,
        if_pos hcpay]
      rfl
    rw [DivisionService.create, hn1, ok_bind, hn2, ok_bind, hn3, ok_bind, hens, ok_bind, hcp]
    rw [DivisionService.validate_parent]
    rw [if_neg (show ¬((some idc : Option Uuid) == none) = true from by simp)]
    rw [hcfresh]
    rfl
  · intro params id0 div s2 hfresh h
    rw [DivisionService.create] at h
    rw [bind_ok] at h; obtain ⟨m1, _hm1, h⟩ := h
    rw [bind_ok] at h; obtain ⟨m2, _hm2, h⟩ := h
    rw [bind_ok] at h; obtain ⟨m3, _hm3, h⟩ := h
    rw [bind_ok] at h; obtain ⟨u, _hu, h⟩ := h
    rw [bind_ok] at h; obtain ⟨pv, hpv, h⟩ := h
    rw [pure_ok] at h
    simp only [Store.insertDivision] at h
    rw [Prod.mk.injEq] at h
    obtain ⟨hdiv, _⟩ := h
    subst hdiv
    show pv ≠ some id0
    intro hcontra
    cases hpo : params.parent_division_id with
    | none =>
      rw [hpo, DivisionService.validate_parent] at hpv
      injection hpv with hpv
      rw [← hpv] at hcontra
      cases hcontra
    | some pq =>
      rw [hpo] at hpv
      obtain ⟨hvp, _, parent, hparent, _⟩ := validate_parent_some_ok hpv
      rw [hvp] at hcontra
      rw [Option.some.injEq] at hcontra
      rw [hcontra] at hparent
      rw [hfresh] at hparent
      cases hparent
  · intro id0 params dd div s2 hdd hself h
    have f := division_update_ok_fields hdd h
    have hdid : dd.id = id0 := by
      have := List.find?_some
        (show s.divisions.find? (fun x => x.id == id0) = some dd from hdd)
      exact beq_iff_eq.mp (by simpa using this)
    have hid : div.id = id0 := by rw [f.1, hdid]
    cases hpo : params.parent_division_id with
    | none =>
      have hp := f.2.2.1 hpo
      rw [hp, hid]
      exact hself
    | some pf =>
      obtain ⟨v, hv, hdp⟩ := f.2.2.2.1 pf hpo
      cases pf with
      | none =>
        rw [DivisionService.validate_parent] at hv
        injection hv with hv
        rw [hdp, ← hv]
        intro hc
        cases hc
      | some pq =>
        obtain ⟨hvp, hne, _⟩ := validate_parent_some_ok hv
        rw [hdp, hvp, hid]
        exact hne

/-- C7 amended witness: division 22's update with itself as parent, and a
create under payroll 10 whose parent equals the fresh id 99. -/
theorem claim_C7_amended_self_parent_witness :
    DivisionService.update exampleStore 22 { parent_division_id := some (some 22) } =
      .error (.validation "division cannot be its own parent") ∧
    DivisionService.create exampleStore
      { name := "New".toList, description := "Desc".toList, budget_code := "BC".toList,
        payroll_id := 10, parent_division_id := some 99 } 99 =
      .error (.notFound ("parent division `" ++ toString (99 : Uuid) ++ "` not found")) ∧
    (∀ params id0 div s2, exampleStore.fetchDivision id0 = none →
      DivisionService.create exampleStore params id0 = .ok (div, s2) →
      div.parent_division_id ≠ some div.id) ∧
    (∀ id0 params dd div s2, exampleStore.fetchDivision id0 = some dd →
      dd.parent_division_id ≠ some id0 →
      DivisionService.update exampleStore id0 params = .ok (some div, s2) →
      div.parent_division_id ≠ some div.id) :=
  claim_C7_amended_self_parent exampleStore 22 99 d22
    { parent_division_id := some (some 22) }
    { name := "New".toList, description := "Desc".toList, budget_code := "BC".toList,
      payroll_id := 10, parent_division_id := some 99 }
    "New".toList "Desc".toList "BC".toList
    (by decide) rfl (by intro p hp; cases hp) (by decide) rfl rfl rfl rfl (by decide)

/-- C5 amended: `create` and `list` confirm the organization exists and
fail with NotFound when it does not; `update` and `delete` never check
organization existence — they return `None` / `false` whenever no payroll
matches the `(organization_id, payroll_id)` pair, leaving the store
untouched. -/
theorem claim_C5_amended_org_check (s : Store) (org pid freshid : Uuid)
    (cparams : CreatePayrollParams) (uparams : UpdatePayrollParams) (n dsc : Str)
    (horg : s.fetchOrganization org = none)
    (hn : PayrollService.normalize_name cparams.name = .ok n)
    (hdsc : PayrollService.normalize_description cparams.description = .ok dsc)
    (hu : (uparams.name.isNone && uparams.description.isNone) = false)
    (hget : PayrollService.get s org pid = .ok none) :
    PayrollService.create s org cparams freshid =
      .error (.notFound ("organization `" ++ toString org ++ "` not found")) ∧
    PayrollService.list s org =
      .error (.notFound ("organization `" ++ toString org ++ "` not found")) ∧
    PayrollService.update s org pid uparams = .ok (none, s) ∧
    PayrollService.delete s org pid = .ok (false, s) := by
  have hens : PayrollService.ensure_organization_exists s org =
      .error (.notFound ("organization `" ++ toString org ++ "` not found")) := by
    rw [PayrollService.ensure_organization_exists, OrganizationService.get, ok_bind]
    rw [if_neg (show ¬(s.fetchOrganization org).isSome = true from by rw [horg]; simp)]
  refine ⟨?_, ?_, ?_, ?_⟩
  · rw [PayrollService.create, hn, ok_bind, hdsc, ok_bind, hens]
    rfl
  · rw [PayrollService.list, hens]
    rfl
  · rw [PayrollService.update, hu]
    simp only [Bool.false_eq_true, if_false]
    rw [hget, ok_bind]
    rfl
  · rw [PayrollService.delete, hget, ok_bind]
    rfl

/-- C5 amended witness: `c5Store` has no organization 1; payroll 1 is
stored under the dangling organization 9. -/
theorem claim_C5_amended_org_check_witness :
    PayrollService.create c5Store 1 { name := "May".toList, description := "D".toList } 7 =
      .error (.notFound ("organization `" ++ toString (1 : Uuid) ++ "` not found")) ∧
    PayrollService.list c5Store 1 =
      .error (.notFound ("organization `" ++ toString (1 : Uuid) ++ "` not found")) ∧
    PayrollService.update c5Store 1 1 { name := some "X".toList } = .ok (none, c5Store) ∧
    PayrollService.delete c5Store 1 1 = .ok (false, c5Store) :=
  claim_C5_amended_org_check c5Store 1 1 7
    { name := "May".toList, description := "D".toList } { name := some "X".toList }
    "May".toList "D".toList (by decide) rfl rfl (by decide) (by decide)

/-- C10 amended: Payroll and Bank `delete` under a mismatched organization
scope return `false` with the store untouched.  Employee `delete` returns
`false` when the requested `(organization, payroll, division)` chain is
itself accessible but the employee belongs to another division or payroll;
when the chain is broken the call instead fails with the error of the
scoped division check.  In every case no post-state is produced other than
the unchanged store, so no record outside the requested scope is ever
removed. -/
theorem claim_C10_amended_scoped_delete (s : Store)
    (org org2 org3 p2 p3 d2 d3 pid bid eid : Uuid)
    (pr : Payroll) (bk : Bank) (em : Employee) (e : AppError)
    (hpr : s.fetchPayroll pid = some pr) (hprm : pr.organization_id ≠ org)
    (hbk : s.fetchBank bid = some bk) (hbkm : bk.organization_id ≠ org)
    (hem : s.fetchEmployee eid = some em)
    (hacc : EmployeeService.ensure_division_accessible s org2 p2 d2 = .ok ())
    (hemm : em.division_id ≠ d2 ∨ em.payroll_id ≠ p2)
    (hbr : EmployeeService.ensure_division_accessible s org3 p3 d3 = .error e) :
    PayrollService.delete s org pid = .ok (false, s) ∧
    BankService.delete s org bid = .ok (false, s) ∧
    EmployeeService.delete s org2 p2 d2 eid = .ok (false, s) ∧
    EmployeeService.delete s org3 p3 d3 eid = .error e := by
  have hpget : PayrollService.get s org pid = .ok none := by
    rw [PayrollService.get, hpr]
    simp [Option.filter, beq_eq_false_iff_ne.mpr hprm]
  have hbget : BankService.get s org bid = .ok none := by
    rw [BankService.get, hbk]
    simp [Option.filter, beq_eq_false_iff_ne.mpr hbkm]
  have hfil : (s.fetchEmployee eid).filter
      (fun e0 => e0.division_id == d2 && e0.payroll_id == p2) = none := by
    rw [hem]
    cases hemm with
    | inl hne => simp [Option.filter, beq_eq_false_iff_ne.mpr hne]
    | inr hne => simp [Option.filter, beq_eq_false_iff_ne.mpr hne]
  refine ⟨?_, ?_, ?_, ?_⟩
  · rw [PayrollService.delete, hpget, ok_bind]
    rfl
  · rw [BankService.delete, hbget, ok_bind]
    rfl
  · rw [EmployeeService.delete, EmployeeService.get, hacc, ok_bind, pure_bind_result, hfil]
    rfl
  · rw [EmployeeService.delete, EmployeeService.get, hbr]
    rfl

/-- C10 amended witness: payroll 10 and bank 41 (organization 1) deleted
under organization 2; employee 51 (division 21) deleted under the valid
scope (1, 10, 22) and under the broken scope (1, 10, 99). -/
theorem claim_C10_amended_scoped_delete_witness :
    PayrollService.delete exampleStore 2 10 = .ok (false, exampleStore) ∧
    BankService.delete exampleStore 2 41 = .ok (false, exampleStore) ∧
    EmployeeService.delete exampleStore 1 10 22 51 = .ok (false, exampleStore) ∧
    EmployeeService.delete exampleStore 1 10 99 51 =
      .error (.notFound "division `99` not found for payroll `10` in organization `1`") :=
  claim_C10_amended_scoped_delete exampleStore 2 1 1 10 10 22 99 10 41 51 p10 b41 e51
    (.notFound "division `99` not found for payroll `10` in organization `1`")
    (by decide) (by decide) (by decide) (by decide) (by decide) (by decide)
    (Or.inl (by decide)) (by decide)

/-- C1: for every `get` that takes scope identifiers, a stored record whose
ownership chain does not match the requested scope is reported exactly like
an id that does not exist at all: Payroll and Bank return `ok none` (equal
to the fresh-id outcome), Job and Employee return the very same result as
for an absent id (whether that is `ok none` under an intact chain or the
chain's own NotFound), and none of them can ever return a record under the
wrong scope. -/
theorem claim_C1_scoped_get_mismatch (s : Store) (org p d : Uuid)
    (pid bid jid eid freshP freshB freshJ freshE : Uuid)
    (pr : Payroll) (bk : Bank) (jb : Job) (em : Employee)
    (hpr : s.fetchPayroll pid = some pr) (hprm : pr.organization_id ≠ org)
    (hbk : s.fetchBank bid = some bk) (hbkm : bk.organization_id ≠ org)
    (hjb : s.fetchJob jid = some jb) (hjbm : jb.payroll_id ≠ p)
    (hem : s.fetchEmployee eid = some em)
    (hemm : em.division_id ≠ d ∨ em.payroll_id ≠ p)
    (hfp : s.fetchPayroll freshP = none) (hfb : s.fetchBank freshB = none)
    (hfj : s.fetchJob freshJ = none) (hfe : s.fetchEmployee freshE = none) :
    PayrollService.get s org pid = .ok none ∧
    PayrollService.get s org pid = PayrollService.get s org freshP ∧
    BankService.get s org bid = .ok none ∧
    BankService.get s org bid = BankService.get s org freshB ∧
    JobService.get s org p jid = JobService.get s org p freshJ ∧
    (∀ j, JobService.get s org p jid ≠ .ok (some j)) ∧
    EmployeeService.get s org p d eid = EmployeeService.get s org p d freshE ∧
    (∀ e0, EmployeeService.get s org p d eid ≠ .ok (some e0)) := by
  have hpget : PayrollService.get s org pid = .ok none := by
    rw [PayrollService.get, hpr]
    simp [Option.filter, beq_eq_false_iff_ne.mpr hprm]
  have hpfresh : PayrollService.get s org freshP = .ok none := by
    rw [PayrollService.get, hfp]
    rfl
  have hbget : BankService.get s org bid = .ok none := by
    rw [BankService.get, hbk]
    simp [Option.filter, beq_eq_false_iff_ne.mpr hbkm]
  have hbfresh : BankService.get s org freshB = .ok none := by
    rw [BankService.get, hfb]
    rfl
  have hjfil : (s.fetchJob jid).filter (fun j => j.payroll_id == p) = none := by
    rw [hjb]
    simp [Option.filter, beq_eq_false_iff_ne.mpr hjbm]
  have hjfilf : (s.fetchJob freshJ).filter (fun j => j.payroll_id == p) = none := by
    rw [hfj]
    rfl
  have hefil : (s.fetchEmployee eid).filter
      (fun e0 => e0.division_id == d && e0.payroll_id == p) = none := by
    rw [hem]
    cases hemm with
    | inl hne => simp [Option.filter, beq_eq_false_iff_ne.mpr hne]
    | inr hne => simp [Option.filter, beq_eq_false_iff_ne.mpr hne]
  have hefilf : (s.fetchEmployee freshE).filter
      (fun e0 => e0.division_id == d && e0.payroll_id == p) = none := by
    rw [hfe]
    rfl
  refine ⟨hpget, by rw [hpget, hpfresh], hbget, by rw [hbget, hbfresh], ?_, ?_, ?_, ?_⟩
  · rw [JobService.get, JobService.get]
    cases hens : JobService.ensure_payroll_accessible s org p with
    | error e => rfl
    | ok u => simp only [ok_bind, hjfil, hjfilf]
  · intro j hcontra
    rw [JobService.get] at hcontra
    cases hens : JobService.ensure_payroll_accessible s org p with
    | error e =>
      rw [hens] at hcontra
      cases hcontra
    | ok u =>
      rw [hens] at hcontra
      simp only [ok_bind, pure_ok, hjfil] at hcontra
      cases hcontra
  · rw [EmployeeService.get, EmployeeService.get]
    cases hens : EmployeeService.ensure_division_accessible s org p d with
    | error e => rfl
    | ok u => simp only [ok_bind, hefil, hefilf]
  · intro e0 hcontra
    rw [EmployeeService.get] at hcontra
    cases hens : EmployeeService.ensure_division_accessible s org p d with
    | error e =>
      rw [hens] at hcontra
      cases hcontra
    | ok u =>
      rw [hens] at hcontra
      simp only [ok_bind, pure_ok, hefil] at hcontra
      cases hcontra

/-- C1 witness: payroll 10, bank 41, job 32 and employee 51 of the example
store, each requested under a scope that does not own them, compared with
the absent ids 100-103. -/
theorem claim_C1_scoped_get_mismatch_witness :
    PayrollService.get exampleStore 2 10 = .ok none ∧
    PayrollService.get exampleStore 2 10 = PayrollService.get exampleStore 2 100 ∧
    BankService.get exampleStore 2 41 = .ok none ∧
    BankService.get exampleStore 2 41 = BankService.get exampleStore 2 101 ∧
    JobService.get exampleStore 2 10 32 = JobService.get exampleStore 2 10 102 ∧
    (∀ j, JobService.get exampleStore 2 10 32 ≠ .ok (some j)) ∧
    EmployeeService.get exampleStore 2 10 22 51 =
      EmployeeService.get exampleStore 2 10 22 103 ∧
    (∀ e0, EmployeeService.get exampleStore 2 10 22 51 ≠ .ok (some e0)) :=
  claim_C1_scoped_get_mismatch exampleStore 2 10 22 10 41 32 51 100 101 102 103
    p10 b41 j32 e51 (by decide) (by decide) (by decide) (by decide) (by decide)
    (by decide) (by decide) (Or.inl (by decide)) (by decide) (by decide) (by decide)
    (by decide)

theorem validate_termination_ok {hire : NaiveDate} {td v : Option NaiveDate}
    (h : EmployeeService.validate_termination_date hire td = .ok v) :
    v = td ∧ ∀ t, v = some t → hire ≤ t := by
  cases td with
  | none =>
    rw [EmployeeService.validate_termination_date] at h
    injection h with h
    constructor
    · exact h.symm
    · intro t ht
      rw [← h] at ht
      cases ht
  | some date =>
    rw [EmployeeService.validate_termination_date] at h
    by_cases hlt : date < hire
    · rw [if_pos hlt] at h
      cases h
    · rw [if_neg hlt] at h
      injection h with h
      constructor
      · exact h.symm
      · intro t ht
        rw [← h] at ht
        injection ht with ht
        rw [← ht]
        exact le_of_not_lt hlt

/-- C4 amended: `create` always validates the termination date against the
hire date, and `update` validates it whenever the tri-state
`termination_date` field is supplied (against the new hire date when one is
supplied, else the stored one) — so those records satisfy
termination ≥ hire.  An update that omits `termination_date` leaves the
stored value unchanged, even when it supplies a new `hire_date`, which is
what breaks the unconditional invariant of the original claim. -/
theorem claim_C4_amended_termination_validation :
    (∀ s org p d params id em s2,
      EmployeeService.create s org p d params id = .ok (em, s2) →
      ∀ t, em.termination_date = some t → em.hire_date ≤ t) ∧
    (∀ s org p d eid params tv em s2,
      params.termination_date = some tv →
      EmployeeService.update s org p d eid params = .ok (some em, s2) →
      ∀ t, em.termination_date = some t → em.hire_date ≤ t) ∧
    (∀ s org p d eid params old em s2,
      params.termination_date = none →
      s.fetchEmployee eid = some old →
      EmployeeService.update s org p d eid params = .ok (some em, s2) →
      em.termination_date = old.termination_date) := by
  refine ⟨?_, ?_, ?_⟩
  · intro s org p d params id em s2 h
    rw [EmployeeService.create] at h
    simp only [bind_ok, pure_ok] at h
    obtain ⟨x1, _h1, dv, _h2, x3, _h3, x4, _h4, n1, _g1, n2, _g2, n3, _g3, n4, _g4,
      n5, _g5, n6, _g6, n7, _g7, n8, _g8, n9, _g9, n10, _g10, n11, _g11, n12, _g12,
      hrs, _g13, td, htd, hfinal⟩ := h
    simp only [Store.insertEmployee] at hfinal
    rw [Prod.mk.injEq] at hfinal
    obtain ⟨hrec, _⟩ := hfinal
    subst hrec
    have hv := validate_termination_ok htd
    intro t ht
    dsimp only at ht
    exact hv.2 t ht
  · intro s org p d eid params tv em s2 hterm h
    rw [EmployeeService.update] at h
    cases hg : params.allAbsent with
    | true =>
      rw [hg] at h
      simp at h
    | false =>
      rw [hg] at h
      simp only [Bool.false_eq_true, if_false] at h
      rw [bind_ok] at h
      obtain ⟨cur, hcur, h⟩ := h
      cases cur with
      | none => simp [pure_ok] at h
      | some employee =>
        simp only [bind_ok, pure_ok] at h
        obtain ⟨u1, _hu1, u2, _hu2, td, htd, n1, _g1, n2, _g2, n3, _g3, n4, _g4,
          n5, _g5, n6, _g6, n7, _g7, n8, _g8, n9, _g9, n10, _g10, n11, _g11, n12, _g12,
          hrs, _g13, hfinal⟩ := h
        rw [hterm] at htd
        simp only [bind_ok, pure_ok] at htd
        obtain ⟨validated, hval, hpuv⟩ := htd
        have hfetch := (employee_get_ok_some hcur).1
        simp only [Store.updateEmployee, hfetch] at hfinal
        rw [Prod.mk.injEq] at hfinal
        obtain ⟨hu, _⟩ := hfinal
        rw [Option.some.injEq] at hu
        subst hu
        have hv := validate_termination_ok hval
        intro t ht
        dsimp only at ht
        rw [← hpuv] at ht
        simp only [Option.getD_some] at ht
        exact hv.2 t ht
  · intro s org p d eid params old em s2 hterm hold h
    rw [EmployeeService.update] at h
    cases hg : params.allAbsent with
    | true =>
      rw [hg] at h
      simp at h
    | false =>
      rw [hg] at h
      simp only [Bool.false_eq_true, if_false] at h
      rw [bind_ok] at h
      obtain ⟨cur, hcur, h⟩ := h
      cases cur with
      | none => simp [pure_ok] at h
      | some employee =>
        simp only [bind_ok, pure_ok] at h
        obtain ⟨u1, _hu1, u2, _hu2, td, htd, n1, _g1, n2, _g2, n3, _g3, n4, _g4,
          n5, _g5, n6, _g6, n7, _g7, n8, _g8, n9, _g9, n10, _g10, n11, _g11, n12, _g12,
          hrs, _g13, hfinal⟩ := h
        rw [hterm] at htd
        simp only [pure_ok] at htd
        have hfetch := (employee_get_ok_some hcur).1
        have heo : employee = old := by
          rw [hold] at hfetch
          injection hfetch with h'
          exact h'.symm
        subst heo
        simp only [Store.updateEmployee, hfetch] at hfinal
        rw [Prod.mk.injEq] at hfinal
        obtain ⟨hu, _⟩ := hfinal
        rw [Option.some.injEq] at hu
        subst hu
        show td.getD employee.termination_date = employee.termination_date
        rw [← htd]
        rfl

end Nomina
